import Mathlib

/-!
Pod existence checks and blocking waits of `internal/kube`

A shallow embedding of `client.IsPodDeployed`, `client.IsPodDeployedByLabel`,
`client.WaitPodStatus` and `client.WaitPodStatusByLabel` from
`internal/kube/client.go`.

The Kubernetes client (`c.Static().CoreV1().Pods(namespace)`) is an external
collaborator.  It is embedded as a pair of oracles that answer the `n`-th API
request.  Exactly as in Go, a request answers with *two* values: a pointer
(possibly nil) and an error (possibly nil).  `time.Sleep` is embedded as an
entry appended to a log of slept durations.  The two `for { ... }` loops take a
bound on the number of iterations; an execution that uses up the bound ends in
`Outcome.looping`, so "has not returned after `n` attempts" is a statement
about a value.
-/

namespace Kube

/-! ## Data model -/

/-- Go `time.Duration`: a number of nanoseconds. -/
abbrev Duration := Int

/-- Go `time.Second`. -/
def Second : Duration := 1000000000

/-- `defaultWaitSleep = 3 * time.Second` (client.go, line 21). -/
def defaultWaitSleep : Duration := 3 * Second

/-- `corev1.PodPhase` is a Go string type; the zero value is the empty string. -/
abbrev PodPhase := String

/-- The part of `corev1.PodStatus` that the package reads. -/
structure PodStatus where
  Phase : PodPhase
  deriving DecidableEq, Repr

/-- The part of `corev1.Pod` that the package reads, with the object name. -/
structure Pod where
  Name : String
  Status : PodStatus
  deriving DecidableEq, Repr

/-- `corev1.PodList`: `Items` is a slice of pod values. -/
structure PodList where
  Items : List Pod
  deriving DecidableEq, Repr

/-- A non-nil Go `error` value: the text its `Error()` method returns, and a
tag standing for everything else the value carries (dynamic type, status
code). -/
structure GoError where
  Error : String
  tag : Nat
  deriving DecidableEq, Repr

/-- Go `strings.HasPrefix` on character lists. -/
def hasPrefixChars : List Char → List Char → Bool
  | _, [] => true
  | [], _ :: _ => false
  | c :: cs, d :: ds => c == d && hasPrefixChars cs ds

/-- Scan of `s` for an occurrence of `substr` at some offset. -/
def containsChars : List Char → List Char → Bool
  | [], substr => hasPrefixChars [] substr
  | c :: cs, substr => hasPrefixChars (c :: cs) substr || containsChars cs substr

/-- Go `strings.Contains(s, substr)`. -/
def Contains (s substr : String) : Bool :=
  containsChars s.toList substr.toList

/-- The clientset behind `c.Static().CoreV1().Pods(namespace)`.
`Get n namespace name` is the answer to `Pods(namespace).Get(name, ...)` when
`n` requests have been issued before it; `List n namespace selector` is the
answer to `Pods(namespace).List(ListOptions{LabelSelector: selector})`.
Both answer with a pointer, `none` for nil, and an error, `none` for nil. -/
structure Client where
  Get : Nat → String → String → Option Pod × Option GoError
  List : Nat → String → String → Option PodList × Option GoError

/-- What an execution has done so far: the number of API requests issued and
the durations passed to `time.Sleep`, oldest first. -/
structure Trace where
  calls : Nat
  sleeps : List Duration
  deriving DecidableEq, Repr

/-- The trace of a fresh call. -/
def Trace.start : Trace := ⟨0, []⟩

/-- One more API request issued. -/
def Trace.call (t : Trace) : Trace := { t with calls := t.calls + 1 }

/-- One more `time.Sleep(d)` performed. -/
def Trace.sleep (t : Trace) (d : Duration) : Trace := { t with sleeps := t.sleeps ++ [d] }

/-- How an execution ends: it returns `v`, it panics on a nil pointer
dereference, or it is still in its loop when the iteration bound is used up. -/
inductive Outcome (α : Type) where
  | returned (v : α) (t : Trace)
  | panicked (t : Trace)
  | looping (t : Trace)
  deriving DecidableEq, Repr

/-! ## Operations -/

/-- `fmt.Sprintf("%s=%s", labelName, labelValue)`. -/
def labelSelector (labelName labelValue : String) : String :=
  labelName ++ "=" ++ labelValue

/-- `client.IsPodDeployed` (client.go, lines 99-109). The pod value is
discarded (`_`), so a nil pointer is harmless here. -/
def IsPodDeployed (c : Client) (t : Trace) (ns name : String) :
    Outcome (Bool × Option GoError) :=
  let r := c.Get t.calls ns name
  let t1 := t.call
  match r.2 with
  | some err =>
    if Contains err.Error "not found" then
      .returned (false, none) t1
    else
      .returned (false, some err) t1
  | none => .returned (true, none) t1

/-- `client.IsPodDeployedByLabel` (client.go, lines 111-118).
`pods.Items` dereferences the list pointer. -/
def IsPodDeployedByLabel (c : Client) (t : Trace) (ns labelName labelValue : String) :
    Outcome (Bool × Option GoError) :=
  let r := c.List t.calls ns (labelSelector labelName labelValue)
  let t1 := t.call
  match r.2 with
  | some err => .returned (false, some err) t1
  | none =>
    match r.1 with
    | none => .panicked t1
    | some pods => .returned (decide (pods.Items.length > 0), none) t1

/-- `client.WaitPodStatus` (client.go, lines 120-132), at most `fuel`
iterations of the `for` loop.  The guard of the first `if` is
`err != nil && !strings.Contains(err.Error(), "not found")`; after it the code
reads `pod.Status.Phase` whether or not `err` is nil. -/
def WaitPodStatus (c : Client) (ns name : String) (status : PodPhase) :
    Nat → Trace → Outcome (Option GoError)
  | 0, t => .looping t
  | fuel + 1, t =>
    let r := c.Get t.calls ns name
    let t1 := t.call
    match r.2 with
    | some err =>
      if !Contains err.Error "not found" then
        .returned (some err) t1
      else
        match r.1 with
        | none => .panicked t1
        | some pod =>
          if status = pod.Status.Phase then .returned none t1
          else WaitPodStatus c ns name status fuel (t1.sleep defaultWaitSleep)
    | none =>
      match r.1 with
      | none => .panicked t1
      | some pod =>
        if status = pod.Status.Phase then .returned none t1
        else WaitPodStatus c ns name status fuel (t1.sleep defaultWaitSleep)

/-- The inner `for _, pod := range pods.Items` loop of `WaitPodStatusByLabel`
(client.go, lines 141-148): the value of `ok` after it. -/
def allInStatus (status : PodPhase) : List Pod → Bool
  | [] => true
  | pod :: rest => if status ≠ pod.Status.Phase then false else allInStatus status rest

/-- `client.WaitPodStatusByLabel` (client.go, lines 134-154), at most `fuel`
iterations of the outer `for` loop. -/
def WaitPodStatusByLabel (c : Client) (ns labelName labelValue : String)
    (status : PodPhase) : Nat → Trace → Outcome (Option GoError)
  | 0, t => .looping t
  | fuel + 1, t =>
    let r := c.List t.calls ns (labelSelector labelName labelValue)
    let t1 := t.call
    match r.2 with
    | some err => .returned (some err) t1
    | none =>
      match r.1 with
      | none => .panicked t1
      | some pods =>
        if allInStatus status pods.Items then .returned none t1
        else WaitPodStatusByLabel c ns labelName labelValue status fuel
          (t1.sleep defaultWaitSleep)

/-! ## Stubs used at concrete inputs -/

/-- The error of an absent pod, as the API server words it. -/
def errNotFound : GoError := ⟨"pods \"pod-a\" not found", 404⟩

/-- An error that is not about absence. -/
def errRefused : GoError := ⟨"connection refused", 0⟩

/-- The zero pod `&v1.Pod{}`: empty name, empty phase. -/
def zeroPod : Pod := ⟨"", ⟨""⟩⟩

/-- A pod named `pod-a` in the given phase. -/
def podA (phase : PodPhase) : Pod := ⟨"pod-a", ⟨phase⟩⟩

/-- A client whose `Get` answers follow a script, then repeat the default. -/
def scriptGet (script : List (Option Pod × Option GoError))
    (dflt : Option Pod × Option GoError) : Client :=
  { Get := fun n _ _ => script.getD n dflt
    List := fun _ _ _ => (none, some errRefused) }

/-- A client whose `List` answers follow a script, then repeat the default. -/
def scriptList (script : List (Option PodList × Option GoError))
    (dflt : Option PodList × Option GoError) : Client :=
  { Get := fun _ _ _ => (none, some errRefused)
    List := fun n _ _ => script.getD n dflt }

/-! ## Facts about the helpers -/

theorem hasPrefixChars_iff (s substr : List Char) :
    hasPrefixChars s substr = true ↔ substr <+: s := by
  induction s generalizing substr with
  | nil =>
    cases substr with
    | nil => simp [hasPrefixChars]
    | cons d ds => simp [hasPrefixChars]
  | cons c cs ih =>
    cases substr with
    | nil => simp [hasPrefixChars]
    | cons d ds =>
      simp only [hasPrefixChars, Bool.and_eq_true, beq_iff_eq, ih, List.cons_prefix_cons]
      constructor
      · rintro ⟨h1, h2⟩
        exact ⟨h1.symm, h2⟩
      · rintro ⟨h1, h2⟩
        exact ⟨h1.symm, h2⟩

/-- The scan `containsChars` decides "`substr` occurs in `s` as a contiguous
block". -/
theorem containsChars_iff (s substr : List Char) :
    containsChars s substr = true ↔ substr <:+: s := by
  induction s with
  | nil =>
    simp only [containsChars, hasPrefixChars_iff, List.prefix_nil, List.infix_nil]
  | cons c cs ih =>
    simp only [containsChars, Bool.or_eq_true, hasPrefixChars_iff, ih, List.infix_cons_iff]

/-- The value of `ok` after the inner loop: every listed pod is in the wanted
phase. -/
theorem allInStatus_iff (status : PodPhase) (l : List Pod) :
    allInStatus status l = true ↔ ∀ pod ∈ l, pod.Status.Phase = status := by
  induction l with
  | nil => simp [allInStatus]
  | cons p rest ih =>
    by_cases h : status = p.Status.Phase
    · subst h
      simp [allInStatus, ih]
    · have h2 : ¬ p.Status.Phase = status := fun e => h e.symm
      simp [allInStatus, h, h2]

theorem allInStatus_false_of_mem (status : PodPhase) (l : List Pod)
    (h : ∃ pod ∈ l, pod.Status.Phase ≠ status) : allInStatus status l = false := by
  rcases h with ⟨pod, hmem, hne⟩
  cases hb : allInStatus status l with
  | false => rfl
  | true => exact absurd ((allInStatus_iff status l).1 hb pod hmem) hne

/-! ## One iteration of `WaitPodStatus` -/

/-- An answer to `Get` after which `WaitPodStatus` sleeps and retries: the
error, if any, mentions "not found", the pod pointer is not nil and the phase
read through it differs from the wanted one. -/
def getRetries (status : PodPhase) (r : Option Pod × Option GoError) : Prop :=
  (∀ e, r.2 = some e → Contains e.Error "not found" = true) ∧
    ∃ pod, r.1 = some pod ∧ status ≠ pod.Status.Phase

theorem WaitPodStatus_zero (c : Client) (ns name : String) (status : PodPhase) (t : Trace) :
    WaitPodStatus c ns name status 0 t = .looping t := rfl

theorem WaitPodStatus_step_retry (c : Client) (ns name : String) (status : PodPhase)
    (fuel : Nat) (t : Trace) (h : getRetries status (c.Get t.calls ns name)) :
    WaitPodStatus c ns name status (fuel + 1) t =
      WaitPodStatus c ns name status fuel (t.call.sleep defaultWaitSleep) := by
  obtain ⟨herr, pod, hpod, hne⟩ := h
  rw [WaitPodStatus]
  cases he : (c.Get t.calls ns name).2 with
  | none => simp [hpod, hne]
  | some e => simp [hpod, hne, herr e he]

theorem WaitPodStatus_step_fatal (c : Client) (ns name : String) (status : PodPhase)
    (fuel : Nat) (t : Trace) (e : GoError) (he : (c.Get t.calls ns name).2 = some e)
    (hnf : Contains e.Error "not found" = false) :
    WaitPodStatus c ns name status (fuel + 1) t = .returned (some e) t.call := by
  rw [WaitPodStatus]
  simp [he, hnf]

theorem WaitPodStatus_step_match (c : Client) (ns name : String) (status : PodPhase)
    (fuel : Nat) (t : Trace) (pod : Pod) (hpod : (c.Get t.calls ns name).1 = some pod)
    (herr : ∀ e, (c.Get t.calls ns name).2 = some e → Contains e.Error "not found" = true)
    (hph : status = pod.Status.Phase) :
    WaitPodStatus c ns name status (fuel + 1) t = .returned none t.call := by
  rw [WaitPodStatus]
  cases he : (c.Get t.calls ns name).2 with
  | none => simp [hpod, hph]
  | some e => simp [hpod, hph, herr e he]

theorem WaitPodStatus_step_nil (c : Client) (ns name : String) (status : PodPhase)
    (fuel : Nat) (t : Trace) (hpod : (c.Get t.calls ns name).1 = none)
    (herr : ∀ e, (c.Get t.calls ns name).2 = some e → Contains e.Error "not found" = true) :
    WaitPodStatus c ns name status (fuel + 1) t = .panicked t.call := by
  rw [WaitPodStatus]
  cases he : (c.Get t.calls ns name).2 with
  | none => simp [hpod]
  | some e => simp [hpod, herr e he]

/-- After `k` retrying answers the loop is where it started, `k` requests and
`k` sleeps later. -/
theorem WaitPodStatus_retry_prefix (c : Client) (ns name : String) (status : PodPhase)
    (k : Nat) : ∀ (t : Trace),
      (∀ i, i < k → getRetries status (c.Get (t.calls + i) ns name)) →
      ∀ fuel, WaitPodStatus c ns name status (k + fuel) t =
        WaitPodStatus c ns name status fuel
          ⟨t.calls + k, t.sleeps ++ List.replicate k defaultWaitSleep⟩ := by
  induction k with
  | zero =>
    intro t _ fuel
    simp
  | succ k ih =>
    intro t h fuel
    have h0 : getRetries status (c.Get t.calls ns name) := by
      simpa using h 0 (Nat.succ_pos k)
    have hrest : ∀ i, i < k →
        getRetries status (c.Get ((t.call.sleep defaultWaitSleep).calls + i) ns name) := by
      intro i hi
      have := h (i + 1) (Nat.succ_lt_succ hi)
      simpa [Trace.call, Trace.sleep, Nat.add_assoc, Nat.add_comm 1 i] using this
    have e1 : k + 1 + fuel = (k + fuel) + 1 := by omega
    rw [e1, WaitPodStatus_step_retry c ns name status (k + fuel) t h0, ih _ hrest fuel]
    simp [Trace.call, Trace.sleep, List.replicate_succ, Nat.add_assoc, Nat.add_comm 1 k]

/-- An error that `WaitPodStatus` returns never mentions "not found". -/
theorem WaitPodStatus_returned_error (c : Client) (ns name : String) (status : PodPhase)
    (fuel : Nat) : ∀ (t t2 : Trace) (e : GoError),
      WaitPodStatus c ns name status fuel t = .returned (some e) t2 →
      Contains e.Error "not found" = false := by
  induction fuel with
  | zero =>
    intro t t2 e h
    simp [WaitPodStatus] at h
  | succ fuel ih =>
    intro t t2 e h
    rw [WaitPodStatus] at h
    cases he : (c.Get t.calls ns name).2 with
    | none =>
      cases hp : (c.Get t.calls ns name).1 with
      | none => simp [he, hp] at h
      | some pod =>
        by_cases hph : status = pod.Status.Phase
        · simp [he, hp, hph] at h
        · simp only [he, hp, hph, if_false] at h
          exact ih _ _ _ h
    | some e2 =>
      cases hc : Contains e2.Error "not found" with
      | false =>
        simp [he, hc] at h
        rw [← h.1]
        exact hc
      | true =>
        cases hp : (c.Get t.calls ns name).1 with
        | none => simp [he, hp, hc] at h
        | some pod =>
          by_cases hph : status = pod.Status.Phase
          · simp [he, hp, hc, hph] at h
          · simp only [he, hp, hc, hph, if_false, Bool.not_true, Bool.false_eq_true] at h
            exact ih _ _ _ h

/-! ## One iteration of `WaitPodStatusByLabel` -/

/-- An answer to `List` after which `WaitPodStatusByLabel` sleeps and retries:
no error, a list, and in it a pod whose phase differs from the wanted one. -/
def listRetries (status : PodPhase) (r : Option PodList × Option GoError) : Prop :=
  r.2 = none ∧ ∃ pods, r.1 = some pods ∧ ∃ pod ∈ pods.Items, pod.Status.Phase ≠ status

theorem WaitPodStatusByLabel_step_retry (c : Client) (ns labelName labelValue : String)
    (status : PodPhase) (fuel : Nat) (t : Trace)
    (h : listRetries status (c.List t.calls ns (labelSelector labelName labelValue))) :
    WaitPodStatusByLabel c ns labelName labelValue status (fuel + 1) t =
      WaitPodStatusByLabel c ns labelName labelValue status fuel
        (t.call.sleep defaultWaitSleep) := by
  obtain ⟨herr, pods, hpods, hmem⟩ := h
  rw [WaitPodStatusByLabel]
  simp [herr, hpods, allInStatus_false_of_mem status pods.Items hmem]

theorem WaitPodStatusByLabel_step_error (c : Client) (ns labelName labelValue : String)
    (status : PodPhase) (fuel : Nat) (t : Trace) (e : GoError)
    (he : (c.List t.calls ns (labelSelector labelName labelValue)).2 = some e) :
    WaitPodStatusByLabel c ns labelName labelValue status (fuel + 1) t =
      .returned (some e) t.call := by
  rw [WaitPodStatusByLabel]
  simp [he]

theorem WaitPodStatusByLabel_step_all (c : Client) (ns labelName labelValue : String)
    (status : PodPhase) (fuel : Nat) (t : Trace) (pods : PodList)
    (he : (c.List t.calls ns (labelSelector labelName labelValue)).2 = none)
    (hp : (c.List t.calls ns (labelSelector labelName labelValue)).1 = some pods)
    (hall : ∀ pod ∈ pods.Items, pod.Status.Phase = status) :
    WaitPodStatusByLabel c ns labelName labelValue status (fuel + 1) t =
      .returned none t.call := by
  rw [WaitPodStatusByLabel]
  simp [he, hp, (allInStatus_iff status pods.Items).2 hall]

/-- After `k` retrying answers the loop is where it started, `k` requests and
`k` sleeps later. -/
theorem WaitPodStatusByLabel_retry_prefix (c : Client) (ns labelName labelValue : String)
    (status : PodPhase) (k : Nat) : ∀ (t : Trace),
      (∀ i, i < k →
        listRetries status (c.List (t.calls + i) ns (labelSelector labelName labelValue))) →
      ∀ fuel, WaitPodStatusByLabel c ns labelName labelValue status (k + fuel) t =
        WaitPodStatusByLabel c ns labelName labelValue status fuel
          ⟨t.calls + k, t.sleeps ++ List.replicate k defaultWaitSleep⟩ := by
  induction k with
  | zero =>
    intro t _ fuel
    simp
  | succ k ih =>
    intro t h fuel
    have h0 : listRetries status (c.List t.calls ns (labelSelector labelName labelValue)) := by
      simpa using h 0 (Nat.succ_pos k)
    have hrest : ∀ i, i < k → listRetries status
        (c.List ((t.call.sleep defaultWaitSleep).calls + i) ns
          (labelSelector labelName labelValue)) := by
      intro i hi
      have := h (i + 1) (Nat.succ_lt_succ hi)
      simpa [Trace.call, Trace.sleep, Nat.add_assoc, Nat.add_comm 1 i] using this
    have e1 : k + 1 + fuel = (k + fuel) + 1 := by omega
    rw [e1, WaitPodStatusByLabel_step_retry c ns labelName labelValue status (k + fuel) t h0,
      ih _ hrest fuel]
    simp [Trace.call, Trace.sleep, List.replicate_succ, Nat.add_assoc, Nat.add_comm 1 k]

/-! ## The loops from a fresh trace -/

/-- `k` retrying answers from the start: the loop has issued `k` requests,
slept `k` times and not returned. -/
theorem WaitPodStatus_still_looping (c : Client) (ns name : String) (status : PodPhase)
    (k : Nat) (h : ∀ i, i < k → getRetries status (c.Get i ns name)) :
    WaitPodStatus c ns name status k Trace.start =
      .looping ⟨k, List.replicate k defaultWaitSleep⟩ := by
  have := WaitPodStatus_retry_prefix c ns name status k Trace.start
    (by intro i hi; simpa [Trace.start] using h i hi) 0
  simpa [Trace.start, WaitPodStatus_zero] using this

/-- `k` retrying answers from the start and then `fuel` more iterations. -/
theorem WaitPodStatus_after_retries (c : Client) (ns name : String) (status : PodPhase)
    (k fuel : Nat) (h : ∀ i, i < k → getRetries status (c.Get i ns name)) :
    WaitPodStatus c ns name status (k + fuel) Trace.start =
      WaitPodStatus c ns name status fuel ⟨k, List.replicate k defaultWaitSleep⟩ := by
  have := WaitPodStatus_retry_prefix c ns name status k Trace.start
    (by intro i hi; simpa [Trace.start] using h i hi) fuel
  simpa [Trace.start] using this

theorem WaitPodStatusByLabel_still_looping (c : Client) (ns labelName labelValue : String)
    (status : PodPhase) (k : Nat)
    (h : ∀ i, i < k →
      listRetries status (c.List i ns (labelSelector labelName labelValue))) :
    WaitPodStatusByLabel c ns labelName labelValue status k Trace.start =
      .looping ⟨k, List.replicate k defaultWaitSleep⟩ := by
  have := WaitPodStatusByLabel_retry_prefix c ns labelName labelValue status k Trace.start
    (by intro i hi; simpa [Trace.start] using h i hi) 0
  simpa [Trace.start, WaitPodStatusByLabel] using this

theorem WaitPodStatusByLabel_after_retries (c : Client) (ns labelName labelValue : String)
    (status : PodPhase) (k fuel : Nat)
    (h : ∀ i, i < k →
      listRetries status (c.List i ns (labelSelector labelName labelValue))) :
    WaitPodStatusByLabel c ns labelName labelValue status (k + fuel) Trace.start =
      WaitPodStatusByLabel c ns labelName labelValue status fuel
        ⟨k, List.replicate k defaultWaitSleep⟩ := by
  have := WaitPodStatusByLabel_retry_prefix c ns labelName labelValue status k Trace.start
    (by intro i hi; simpa [Trace.start] using h i hi) fuel
  simpa [Trace.start] using this

/-! ## Existence checks -/

/-- C4: `IsPodDeployed` issues one request and no sleep; it returns
`(true, nil)` when the request succeeds, whatever pod (or nil pointer) comes
with it, `(false, nil)` when the error mentions "not found", and `(false, err)`
with the very error of the request otherwise. -/
theorem IsPodDeployed_spec (c : Client) (t : Trace) (ns name : String) :
    (∀ p, c.Get t.calls ns name = (p, none) →
      IsPodDeployed c t ns name = .returned (true, none) ⟨t.calls + 1, t.sleeps⟩) ∧
    (∀ p e, c.Get t.calls ns name = (p, some e) → Contains e.Error "not found" = true →
      IsPodDeployed c t ns name = .returned (false, none) ⟨t.calls + 1, t.sleeps⟩) ∧
    (∀ p e, c.Get t.calls ns name = (p, some e) → Contains e.Error "not found" = false →
      IsPodDeployed c t ns name = .returned (false, some e) ⟨t.calls + 1, t.sleeps⟩) := by
  refine ⟨?_, ?_, ?_⟩
  · intro p h
    simp [IsPodDeployed, h, Trace.call]
  · intro p e h hc
    simp [IsPodDeployed, h, hc, Trace.call]
  · intro p e h hc
    simp [IsPodDeployed, h, hc, Trace.call]

/-- C4 at concrete stubs: a pod in phase `Failed`, an absent pod, a refused
connection. -/
theorem IsPodDeployed_spec_witness :
    IsPodDeployed (scriptGet [] (some (podA "Failed"), none)) Trace.start "ns1" "pod-a" =
        .returned (true, none) ⟨1, []⟩ ∧
    IsPodDeployed (scriptGet [] (none, some errNotFound)) Trace.start "ns1" "pod-a" =
        .returned (false, none) ⟨1, []⟩ ∧
    IsPodDeployed (scriptGet [] (none, some errRefused)) Trace.start "ns1" "pod-a" =
        .returned (false, some errRefused) ⟨1, []⟩ :=
  ⟨(IsPodDeployed_spec (scriptGet [] (some (podA "Failed"), none)) Trace.start "ns1" "pod-a").1
      (some (podA "Failed")) rfl,
   (IsPodDeployed_spec (scriptGet [] (none, some errNotFound)) Trace.start "ns1" "pod-a").2.1
      none errNotFound rfl (by decide),
   (IsPodDeployed_spec (scriptGet [] (none, some errRefused)) Trace.start "ns1" "pod-a").2.2
      none errRefused rfl (by decide)⟩

/-- The list with every pod's phase replaced by `f pod`. -/
def rephase (f : Pod → PodPhase) (pods : PodList) : PodList :=
  ⟨pods.Items.map (fun pod => { pod with Status := ⟨f pod⟩ })⟩

/-- C5: `IsPodDeployedByLabel` returns `(true, nil)` exactly when the list
request succeeds with a non-empty list, `(false, nil)` when it succeeds with an
empty list, `(false, err)` with the very error of the request when it fails,
whether or not the text mentions "not found"; and replacing the phases of the
listed pods does not change the result. -/
theorem IsPodDeployedByLabel_spec (c : Client) (t : Trace) (ns labelName labelValue : String) :
    (IsPodDeployedByLabel c t ns labelName labelValue =
        .returned (true, none) ⟨t.calls + 1, t.sleeps⟩ ↔
      ∃ pods, c.List t.calls ns (labelSelector labelName labelValue) = (some pods, none) ∧
        pods.Items ≠ []) ∧
    (∀ pods, c.List t.calls ns (labelSelector labelName labelValue) = (some pods, none) →
      pods.Items = [] →
      IsPodDeployedByLabel c t ns labelName labelValue =
        .returned (false, none) ⟨t.calls + 1, t.sleeps⟩) ∧
    (∀ p e, c.List t.calls ns (labelSelector labelName labelValue) = (p, some e) →
      IsPodDeployedByLabel c t ns labelName labelValue =
        .returned (false, some e) ⟨t.calls + 1, t.sleeps⟩) ∧
    (∀ pods f (c2 : Client),
      c.List t.calls ns (labelSelector labelName labelValue) = (some pods, none) →
      c2.List t.calls ns (labelSelector labelName labelValue) = (some (rephase f pods), none) →
      IsPodDeployedByLabel c2 t ns labelName labelValue =
        IsPodDeployedByLabel c t ns labelName labelValue) := by
  refine ⟨?_, ?_, ?_, ?_⟩
  · constructor
    · intro h
      cases he : (c.List t.calls ns (labelSelector labelName labelValue)).2 with
      | some e => simp [IsPodDeployedByLabel, he] at h
      | none =>
        cases hp : (c.List t.calls ns (labelSelector labelName labelValue)).1 with
        | none => simp [IsPodDeployedByLabel, he, hp] at h
        | some pods =>
          refine ⟨pods, Prod.ext hp he, ?_⟩
          simp [IsPodDeployedByLabel, he, hp] at h
          intro hnil
          rw [hnil] at h
          simp at h
    · rintro ⟨pods, h, hne⟩
      have : 0 < pods.Items.length := List.length_pos.2 hne
      simp [IsPodDeployedByLabel, h, Trace.call, this]
  · intro pods h hnil
    simp [IsPodDeployedByLabel, h, hnil, Trace.call]
  · intro p e h
    simp [IsPodDeployedByLabel, h, Trace.call]
  · intro pods f c2 h h2
    simp [IsPodDeployedByLabel, h, h2, rephase]

/-- C5 at concrete stubs: a single pod in phase `Failed`, an empty list, a
"not found" error, and the single pod moved to phase `Running`. -/
theorem IsPodDeployedByLabel_spec_witness :
    IsPodDeployedByLabel (scriptList [] (some ⟨[podA "Failed"]⟩, none)) Trace.start
        "ns1" "app" "web" = .returned (true, none) ⟨1, []⟩ ∧
    IsPodDeployedByLabel (scriptList [] (some ⟨[]⟩, none)) Trace.start
        "ns1" "app" "web" = .returned (false, none) ⟨1, []⟩ ∧
    IsPodDeployedByLabel (scriptList [] (none, some errNotFound)) Trace.start
        "ns1" "app" "web" = .returned (false, some errNotFound) ⟨1, []⟩ ∧
    IsPodDeployedByLabel (scriptList [] (some ⟨[podA "Running"]⟩, none)) Trace.start
        "ns1" "app" "web" =
      IsPodDeployedByLabel (scriptList [] (some ⟨[podA "Failed"]⟩, none)) Trace.start
        "ns1" "app" "web" :=
  ⟨(IsPodDeployedByLabel_spec (scriptList [] (some ⟨[podA "Failed"]⟩, none)) Trace.start
      "ns1" "app" "web").1.2 ⟨⟨[podA "Failed"]⟩, rfl, by simp⟩,
   (IsPodDeployedByLabel_spec (scriptList [] (some ⟨[]⟩, none)) Trace.start
      "ns1" "app" "web").2.1 ⟨[]⟩ rfl rfl,
   (IsPodDeployedByLabel_spec (scriptList [] (none, some errNotFound)) Trace.start
      "ns1" "app" "web").2.2.1 none errNotFound rfl,
   (IsPodDeployedByLabel_spec (scriptList [] (some ⟨[podA "Failed"]⟩, none)) Trace.start
      "ns1" "app" "web").2.2.2 ⟨[podA "Failed"]⟩ (fun _ => "Running")
      (scriptList [] (some ⟨[podA "Running"]⟩, none)) rfl rfl⟩

/-! ## Waiting on a label selector -/

/-- A client whose `List` answers a mixed list on the first `n` requests and a
list of running pods from then on. -/
def mixedThenRunning (n : Nat) : Client :=
  { Get := fun _ _ _ => (none, some errRefused)
    List := fun i _ _ =>
      if i < n then (some ⟨[podA "Running", podA "Pending"]⟩, none)
      else (some ⟨[podA "Running", podA "Running"]⟩, none) }

/-- C6: when the list requests before the `n`-th (counted from 0) succeed with
a list holding a pod in another phase, and the `n`-th succeeds with a list whose
pods are all in the wanted phase, `WaitPodStatusByLabel` returns nil after
`n + 1` requests and `n` sleeps of `defaultWaitSleep`; after each of the first
`m ≤ n` attempts it has slept and is still in its loop; and any attempt that
lists a pod in another phase sleeps and goes round again. -/
theorem WaitPodStatusByLabel_first_match (c : Client) (ns labelName labelValue : String)
    (status : PodPhase) (n : Nat)
    (hmixed : ∀ i, i < n → ∃ pods,
      c.List i ns (labelSelector labelName labelValue) = (some pods, none) ∧
        ∃ pod ∈ pods.Items, pod.Status.Phase ≠ status)
    (hall : ∃ pods, c.List n ns (labelSelector labelName labelValue) = (some pods, none) ∧
      ∀ pod ∈ pods.Items, pod.Status.Phase = status) :
    (∀ fuel, n < fuel →
      WaitPodStatusByLabel c ns labelName labelValue status fuel Trace.start =
        .returned none ⟨n + 1, List.replicate n defaultWaitSleep⟩) ∧
    (∀ m, m ≤ n →
      WaitPodStatusByLabel c ns labelName labelValue status m Trace.start =
        .looping ⟨m, List.replicate m defaultWaitSleep⟩) ∧
    (∀ (t : Trace) (fuel : Nat) (pods : PodList),
      c.List t.calls ns (labelSelector labelName labelValue) = (some pods, none) →
      (∃ pod ∈ pods.Items, pod.Status.Phase ≠ status) →
      WaitPodStatusByLabel c ns labelName labelValue status (fuel + 1) t =
        WaitPodStatusByLabel c ns labelName labelValue status fuel
          ⟨t.calls + 1, t.sleeps ++ [defaultWaitSleep]⟩) := by
  have hretry : ∀ i, i < n →
      listRetries status (c.List i ns (labelSelector labelName labelValue)) := by
    intro i hi
    obtain ⟨pods, h, hmem⟩ := hmixed i hi
    exact ⟨by rw [h], pods, by rw [h], hmem⟩
  refine ⟨?_, ?_, ?_⟩
  · intro fuel hfuel
    obtain ⟨m, rfl⟩ := Nat.exists_eq_add_of_lt hfuel
    obtain ⟨pods, h, hp⟩ := hall
    rw [Nat.add_assoc,
      WaitPodStatusByLabel_after_retries c ns labelName labelValue status n (m + 1) hretry,
      WaitPodStatusByLabel_step_all c ns labelName labelValue status m _ pods
        (by rw [h]) (by rw [h]) hp]
    rfl
  · intro m hm
    exact WaitPodStatusByLabel_still_looping c ns labelName labelValue status m
      (fun i hi => hretry i (Nat.lt_of_lt_of_le hi hm))
  · intro t fuel pods h hmem
    exact WaitPodStatusByLabel_step_retry c ns labelName labelValue status fuel t
      ⟨by rw [h], pods, by rw [h], hmem⟩

/-- C6 at a concrete stub: two mixed lists, then a list of running pods. The
call returns nil on the third request after two sleeps, and is still looping
after the second. -/
theorem WaitPodStatusByLabel_first_match_witness :
    WaitPodStatusByLabel (mixedThenRunning 2) "ns1" "app" "web" "Running" 7 Trace.start =
        .returned none ⟨3, [defaultWaitSleep, defaultWaitSleep]⟩ ∧
    WaitPodStatusByLabel (mixedThenRunning 2) "ns1" "app" "web" "Running" 2 Trace.start =
        .looping ⟨2, [defaultWaitSleep, defaultWaitSleep]⟩ :=
  have h := WaitPodStatusByLabel_first_match (mixedThenRunning 2) "ns1" "app" "web" "Running" 2
    (fun i hi => ⟨⟨[podA "Running", podA "Pending"]⟩, by simp [mixedThenRunning, hi],
      podA "Pending", by simp, by decide⟩)
    ⟨⟨[podA "Running", podA "Running"]⟩, by simp [mixedThenRunning], by
      intro pod hpod
      simp at hpod
      rw [hpod]
      rfl⟩
  ⟨h.1 7 (by decide), h.2.1 2 (Nat.le_refl 2)⟩

/-- C7: when the first list request succeeds with an empty list,
`WaitPodStatusByLabel` returns nil after that one request, without sleeping. -/
theorem WaitPodStatusByLabel_empty_list (c : Client) (ns labelName labelValue : String)
    (status : PodPhase)
    (h : c.List 0 ns (labelSelector labelName labelValue) = (some ⟨[]⟩, none))
    (fuel : Nat) (hfuel : 0 < fuel) :
    WaitPodStatusByLabel c ns labelName labelValue status fuel Trace.start =
      .returned none ⟨1, []⟩ := by
  obtain ⟨m, rfl⟩ := Nat.exists_eq_add_of_lt hfuel
  rw [Nat.zero_add]
  rw [WaitPodStatusByLabel_step_all c ns labelName labelValue status m Trace.start ⟨[]⟩
    (by rw [Trace.start, h]) (by rw [Trace.start, h]) (by simp)]
  rfl

/-- C7 at a literal empty-list stub. -/
theorem WaitPodStatusByLabel_empty_list_witness :
    WaitPodStatusByLabel (scriptList [] (some ⟨[]⟩, none)) "ns1" "app" "web" "Running" 3
      Trace.start = .returned none ⟨1, []⟩ :=
  WaitPodStatusByLabel_empty_list (scriptList [] (some ⟨[]⟩, none)) "ns1" "app" "web"
    "Running" rfl 3 (by decide)

/-- C8: when the list requests before the `j`-th (counted from 0) succeed with
a list holding a pod in another phase and the `j`-th fails with error `e`, of
any text, `WaitPodStatusByLabel` returns `e` itself after `j + 1` requests and
`j` sleeps. -/
theorem WaitPodStatusByLabel_list_error (c : Client) (ns labelName labelValue : String)
    (status : PodPhase) (j : Nat) (p : Option PodList) (e : GoError)
    (hmixed : ∀ i, i < j → ∃ pods,
      c.List i ns (labelSelector labelName labelValue) = (some pods, none) ∧
        ∃ pod ∈ pods.Items, pod.Status.Phase ≠ status)
    (herr : c.List j ns (labelSelector labelName labelValue) = (p, some e))
    (fuel : Nat) (hfuel : j < fuel) :
    WaitPodStatusByLabel c ns labelName labelValue status fuel Trace.start =
      .returned (some e) ⟨j + 1, List.replicate j defaultWaitSleep⟩ := by
  have hretry : ∀ i, i < j →
      listRetries status (c.List i ns (labelSelector labelName labelValue)) := by
    intro i hi
    obtain ⟨pods, h, hmem⟩ := hmixed i hi
    exact ⟨by rw [h], pods, by rw [h], hmem⟩
  obtain ⟨m, rfl⟩ := Nat.exists_eq_add_of_lt hfuel
  rw [Nat.add_assoc,
    WaitPodStatusByLabel_after_retries c ns labelName labelValue status j (m + 1) hretry,
    WaitPodStatusByLabel_step_error c ns labelName labelValue status m _ e (by rw [herr])]
  rfl

/-- C8 at a concrete stub: two mixed lists, then a "not found" error, which is
returned as it is on the third request. -/
theorem WaitPodStatusByLabel_list_error_witness :
    Contains errNotFound.Error "not found" = true ∧
    WaitPodStatusByLabel
      (scriptList [(some ⟨[podA "Pending"]⟩, none), (some ⟨[podA "Running", podA "Failed"]⟩, none)]
        (none, some errNotFound))
      "ns1" "app" "web" "Running" 5 Trace.start =
        .returned (some errNotFound) ⟨3, [defaultWaitSleep, defaultWaitSleep]⟩ :=
  ⟨by decide,
   WaitPodStatusByLabel_list_error
    (scriptList [(some ⟨[podA "Pending"]⟩, none), (some ⟨[podA "Running", podA "Failed"]⟩, none)]
      (none, some errNotFound))
    "ns1" "app" "web" "Running" 2 none errNotFound
    (fun i hi => by
      interval_cases i
      · exact ⟨⟨[podA "Pending"]⟩, rfl, podA "Pending", by simp, by decide⟩
      · exact ⟨⟨[podA "Running", podA "Failed"]⟩, rfl, podA "Failed", by simp, by decide⟩)
    rfl 5 (by decide)⟩

/-! ## Perpetual mismatch -/

/-- C9: two statements, each about its own stub.  When every `Get` succeeds
with a pod in another phase than the wanted one, `WaitPodStatus` is still in
its loop after `n` iterations, for every `n`, having issued `n` requests and
slept `n` times, whatever `List` answers.  When every `List` succeeds with a
list holding a pod in another phase, `WaitPodStatusByLabel` is still in its
loop after `n` iterations, for every `n`, having issued `n` requests and slept
`n` times, whatever `Get` answers. -/
theorem wait_blocks_on_perpetual_mismatch (c : Client)
    (ns name labelName labelValue : String) (status : PodPhase) :
    ((∀ i, ∃ pod, c.Get i ns name = (some pod, none) ∧ pod.Status.Phase ≠ status) →
      ∀ n, WaitPodStatus c ns name status n Trace.start =
        .looping ⟨n, List.replicate n defaultWaitSleep⟩) ∧
    ((∀ i, ∃ pods,
        c.List i ns (labelSelector labelName labelValue) = (some pods, none) ∧
          ∃ pod ∈ pods.Items, pod.Status.Phase ≠ status) →
      ∀ n, WaitPodStatusByLabel c ns labelName labelValue status n Trace.start =
        .looping ⟨n, List.replicate n defaultWaitSleep⟩) := by
  constructor
  · intro hget n
    apply WaitPodStatus_still_looping
    intro i _
    obtain ⟨pod, h, hne⟩ := hget i
    refine ⟨?_, pod, by rw [h], fun e => hne e.symm⟩
    intro e he
    rw [h] at he
    cases he
  · intro hlist n
    apply WaitPodStatusByLabel_still_looping
    intro i _
    obtain ⟨pods, h, hmem⟩ := hlist i
    exact ⟨by rw [h], pods, by rw [h], hmem⟩

/-- C9 at two concrete stubs, four iterations in: a client whose pod stays
`Pending` (and whose `List` fails), and a client whose list keeps one pending
pod (and whose `Get` fails). -/
theorem wait_blocks_on_perpetual_mismatch_witness :
    WaitPodStatus (scriptGet [] (some (podA "Pending"), none)) "ns1" "pod-a" "Running" 4
        Trace.start =
      .looping ⟨4, [defaultWaitSleep, defaultWaitSleep, defaultWaitSleep, defaultWaitSleep]⟩ ∧
    WaitPodStatusByLabel
        (scriptList [] (some ⟨[podA "Running", podA "Pending"]⟩, none)) "ns1" "app" "web"
        "Running" 4 Trace.start =
      .looping ⟨4, [defaultWaitSleep, defaultWaitSleep, defaultWaitSleep, defaultWaitSleep]⟩ :=
  ⟨(wait_blocks_on_perpetual_mismatch (scriptGet [] (some (podA "Pending"), none))
      "ns1" "pod-a" "app" "web" "Running").1
      (fun _ => ⟨podA "Pending", rfl, by decide⟩) 4,
   (wait_blocks_on_perpetual_mismatch
      (scriptList [] (some ⟨[podA "Running", podA "Pending"]⟩, none))
      "ns1" "pod-a" "app" "web" "Running").2
      (fun _ => ⟨⟨[podA "Running", podA "Pending"]⟩, rfl, podA "Pending", by simp,
        by decide⟩) 4⟩

/-! ## The two readers of a `Get` error -/

/-- C10: for a first `Get` that fails with error `e`, `IsPodDeployed` turns
`e` into `(false, nil)` exactly when the text of `e` contains "not found",
`WaitPodStatus` never returns `e` exactly when the text of `e` contains
"not found", and an `e` without that text is returned as it is by both, after
one request. -/
theorem error_classification_agrees (c : Client) (ns name : String) (status : PodPhase)
    (p : Option Pod) (e : GoError) (h : c.Get 0 ns name = (p, some e)) :
    (IsPodDeployed c Trace.start ns name = .returned (false, none) ⟨1, []⟩ ↔
      Contains e.Error "not found" = true) ∧
    ((∀ fuel t, WaitPodStatus c ns name status fuel Trace.start ≠ .returned (some e) t) ↔
      Contains e.Error "not found" = true) ∧
    ((IsPodDeployed c Trace.start ns name = .returned (false, none) ⟨1, []⟩) ↔
      (∀ fuel t, WaitPodStatus c ns name status fuel Trace.start ≠ .returned (some e) t)) ∧
    (Contains e.Error "not found" = false →
      IsPodDeployed c Trace.start ns name = .returned (false, some e) ⟨1, []⟩ ∧
      ∀ fuel, 0 < fuel →
        WaitPodStatus c ns name status fuel Trace.start = .returned (some e) ⟨1, []⟩) := by
  have hfatal : Contains e.Error "not found" = false → ∀ fuel, 0 < fuel →
      WaitPodStatus c ns name status fuel Trace.start = .returned (some e) ⟨1, []⟩ := by
    intro hc fuel hfuel
    obtain ⟨m, rfl⟩ := Nat.exists_eq_add_of_lt hfuel
    rw [Nat.zero_add, WaitPodStatus_step_fatal c ns name status m Trace.start e
      (by rw [Trace.start, h]) hc]
    rfl
  have h1 : IsPodDeployed c Trace.start ns name = .returned (false, none) ⟨1, []⟩ ↔
      Contains e.Error "not found" = true := by
    cases hc : Contains e.Error "not found" <;>
      simp [IsPodDeployed, Trace.start, Trace.call, h, hc]
  have h2 : (∀ fuel t, WaitPodStatus c ns name status fuel Trace.start ≠ .returned (some e) t) ↔
      Contains e.Error "not found" = true := by
    constructor
    · intro hall
      cases hc : Contains e.Error "not found" with
      | true => rfl
      | false => exact absurd (hfatal hc 1 Nat.one_pos) (hall 1 _)
    · intro hc fuel t hret
      have := WaitPodStatus_returned_error c ns name status fuel Trace.start t e hret
      rw [hc] at this
      cases this
  refine ⟨h1, h2, h1.trans h2.symm, ?_⟩
  intro hc
  refine ⟨?_, hfatal hc⟩
  simp [IsPodDeployed, Trace.start, Trace.call, h, hc]

/-- C10 at two concrete errors: an absent pod and a refused connection. -/
theorem error_classification_agrees_witness :
    (IsPodDeployed (scriptGet [] (some zeroPod, some errNotFound)) Trace.start "ns1" "pod-a" =
        .returned (false, none) ⟨1, []⟩ ↔
      Contains errNotFound.Error "not found" = true) ∧
    (IsPodDeployed (scriptGet [] (none, some errRefused)) Trace.start "ns1" "pod-a" =
        .returned (false, some errRefused) ⟨1, []⟩ ∧
      ∀ fuel, 0 < fuel →
        WaitPodStatus (scriptGet [] (none, some errRefused)) "ns1" "pod-a" "Running" fuel
          Trace.start = .returned (some errRefused) ⟨1, []⟩) :=
  ⟨(error_classification_agrees (scriptGet [] (some zeroPod, some errNotFound)) "ns1" "pod-a"
      "Running" (some zeroPod) errNotFound rfl).1,
   (error_classification_agrees (scriptGet [] (none, some errRefused)) "ns1" "pod-a"
      "Running" none errRefused rfl).2.2.2 (by decide)⟩

/-! ## Waiting on a single pod

After a "not found" error `WaitPodStatus` does not go back to the top of the
loop: it reads `pod.Status.Phase` through the pointer that came with the error.
The first three theorems say what the loop does when that pointer is not nil
and the phase behind it differs from the wanted one; the last three evaluate
the loop where it is nil, or where the phase behind it is the wanted one. -/

/-- `k` "not found" answers, each with a pod in another phase than the wanted
one, then a pod in the wanted phase: nil after `k + 1` requests and `k`
sleeps. -/
theorem WaitPodStatus_notFound_then_match (c : Client) (ns name : String) (status : PodPhase)
    (k : Nat)
    (hnf : ∀ i, i < k → ∃ pod e, c.Get i ns name = (some pod, some e) ∧
      Contains e.Error "not found" = true ∧ pod.Status.Phase ≠ status)
    (hk : ∃ pod, c.Get k ns name = (some pod, none) ∧ pod.Status.Phase = status)
    (fuel : Nat) (hfuel : k < fuel) :
    WaitPodStatus c ns name status fuel Trace.start =
      .returned none ⟨k + 1, List.replicate k defaultWaitSleep⟩ := by
  have hretry : ∀ i, i < k → getRetries status (c.Get i ns name) := by
    intro i hi
    obtain ⟨pod, e, h, hc, hne⟩ := hnf i hi
    refine ⟨?_, pod, by rw [h], fun e => hne e.symm⟩
    intro e2 he2
    rw [h] at he2
    cases he2
    exact hc
  obtain ⟨m, rfl⟩ := Nat.exists_eq_add_of_lt hfuel
  obtain ⟨pod, h, hph⟩ := hk
  rw [Nat.add_assoc, WaitPodStatus_after_retries c ns name status k (m + 1) hretry,
    WaitPodStatus_step_match c ns name status m _ pod (by rw [h])
      (by intro e he; rw [h] at he; cases he) hph.symm]
  rfl

/-- The scenario `[NotFound, NotFound, Phase=Running]` with target `Running`,
the errors coming with the zero pod: nil after 3 requests and 2 sleeps. -/
theorem WaitPodStatus_scenario :
    WaitPodStatus
      (scriptGet [(some zeroPod, some errNotFound), (some zeroPod, some errNotFound)]
        (some (podA "Running"), none))
      "ns1" "pod-a" "Running" 3 Trace.start =
        .returned none ⟨3, [defaultWaitSleep, defaultWaitSleep]⟩ ∧
    defaultWaitSleep = 3000000000 := by
  decide

/-- Retrying answers before the `j`-th request (counted from 0), then an error
`e` whose text lacks "not found": `e` itself after `j + 1` requests and `j`
sleeps. With `j = 0` nothing is asked of the answers before. -/
theorem WaitPodStatus_fatal_after_retries (c : Client) (ns name : String) (status : PodPhase)
    (j : Nat) (p : Option Pod) (e : GoError)
    (hretry : ∀ i, i < j → getRetries status (c.Get i ns name))
    (herr : c.Get j ns name = (p, some e)) (hc : Contains e.Error "not found" = false)
    (fuel : Nat) (hfuel : j < fuel) :
    WaitPodStatus c ns name status fuel Trace.start =
      .returned (some e) ⟨j + 1, List.replicate j defaultWaitSleep⟩ := by
  obtain ⟨m, rfl⟩ := Nat.exists_eq_add_of_lt hfuel
  rw [Nat.add_assoc, WaitPodStatus_after_retries c ns name status j (m + 1) hretry,
    WaitPodStatus_step_fatal c ns name status m _ e (by rw [herr]) hc]
  rfl

/-- C1, on the code: one "not found" answer that comes with the zero pod, then
a pod in the wanted phase, the wanted phase being the empty one.  The call
returns nil on the first request without sleeping, not on the second after one
sleep.  With the scenario `[NotFound, NotFound, Phase=Running]`, target
`Running`, and a nil pointer coming with the errors, the first iteration
panics. -/
theorem WaitPodStatus_notFound_emptyPhase_early :
    Contains errNotFound.Error "not found" = true ∧
    WaitPodStatus (scriptGet [(some zeroPod, some errNotFound)] (some (podA ""), none))
      "ns1" "pod-a" "" 2 Trace.start = .returned none ⟨1, []⟩ ∧
    WaitPodStatus (scriptGet [(some zeroPod, some errNotFound)] (some (podA ""), none))
      "ns1" "pod-a" "" 2 Trace.start ≠ .returned none ⟨2, [defaultWaitSleep]⟩ ∧
    WaitPodStatus
      (scriptGet [(none, some errNotFound), (none, some errNotFound)]
        (some (podA "Running"), none))
      "ns1" "pod-a" "Running" 3 Trace.start = .panicked ⟨1, []⟩ := by
  decide

/-- C2, on the code: an attempt whose `Get` fails with "not found".  With the
zero pod coming with the error and the empty phase wanted, the call returns
nil on that attempt instead of sleeping; with a nil pointer coming with the
error, it panics on that attempt. -/
theorem WaitPodStatus_notFound_attempt_ends :
    Contains errNotFound.Error "not found" = true ∧
    WaitPodStatus (scriptGet [] (some zeroPod, some errNotFound)) "ns1" "pod-a" "" 1
      Trace.start = .returned none ⟨1, []⟩ ∧
    WaitPodStatus (scriptGet [] (some zeroPod, some errNotFound)) "ns1" "pod-a" "" 1
      Trace.start ≠ .looping ⟨1, [defaultWaitSleep]⟩ ∧
    WaitPodStatus (scriptGet [] (none, some errNotFound)) "ns1" "pod-a" "Running" 1
      Trace.start = .panicked ⟨1, []⟩ := by
  decide

/-- C3, on the code: a "not found" answer that comes with the zero pod, then a
refused connection, the wanted phase being the empty one.  The call returns
nil on the first request; the refused connection of the second request is
never returned. -/
theorem WaitPodStatus_notFound_then_fatal_early :
    Contains errNotFound.Error "not found" = true ∧
    Contains errRefused.Error "not found" = false ∧
    WaitPodStatus (scriptGet [(some zeroPod, some errNotFound)] (none, some errRefused))
      "ns1" "pod-a" "" 2 Trace.start = .returned none ⟨1, []⟩ ∧
    WaitPodStatus (scriptGet [(some zeroPod, some errNotFound)] (none, some errRefused))
      "ns1" "pod-a" "" 2 Trace.start ≠
        .returned (some errRefused) ⟨2, [defaultWaitSleep]⟩ := by
  decide

end Kube
